import Mathlib

/-!
Shallow embedding of `crates/burn-import/src/burn/ty.rs` (burn repository).

Modelling conventions:
* `proc_macro2::Ident` is embedded as the `String` it carries.
  `proc_macro2::Ident::new` validates the string and panics on an invalid
  identifier; this is embedded by `Ident.new` below, following proc_macro2's
  fallback `validate_ident`: an empty string panics, a purely numeric string
  panics ("Ident cannot be a number"), and a string failing the
  `ident_ok` well-formedness check (first character `_` or `XID_Start`,
  remaining characters `XID_Continue`) panics ("... is not a valid Ident").
  The Unicode `XID_Start` / `XID_Continue` classes live in the external
  `unicode-ident` tables; they are embedded here by their ASCII restrictions
  (letters for `XID_Start`; letters, digits and `_` for `XID_Continue`),
  which is exact on ASCII names — the purely-numeric node names and
  programmer-supplied names these claims are about.
* `proc_macro2::TokenStream` values produced by `quote!` are embedded as the
  rendered `String` of the token sequence.
* Rust `panic!` / `assert_ne!` aborts are embedded as `Except RustPanic`,
  with one `RustPanic` constructor per panic site, carrying the data that
  the source interpolates into the panic message; `RustPanic.message`
  reproduces the message text (the `\x7b:?\x7d` debug form of interpolated
  strings and token streams is modelled up to escaping).
* `usize` is embedded as `Nat` (the constructors perform no arithmetic, so
  no overflow modelling is needed).
* `name.bytes().all(|digit| digit.is_ascii_digit())` is embedded as
  `name.data.all Char.isDigit` (all characters of the string are ASCII
  digits): a string's bytes are all ASCII digits iff its characters are,
  because an ASCII digit is a single-byte character and any non-ASCII
  character contributes a byte outside the digit range.
-/

namespace BurnTy

/-- Embeds `enum TensorKind { Int, Float, Bool }`. -/
inductive TensorKind
  | Int
  | Float
  | Bool
deriving DecidableEq, Repr

/-- Embeds `enum ScalarKind { Int32, Int64, Float32, Float64, Bool }`. -/
inductive ScalarKind
  | Int32
  | Int64
  | Float32
  | Float64
  | Bool
deriving DecidableEq, Repr

/-- Embeds `struct TensorType { name, dim, kind, shape }`. -/
structure TensorType where
  name : String
  dim : Nat
  kind : TensorKind
  shape : Option (List Nat)
deriving DecidableEq, Repr

/-- Embeds `struct ScalarType { name, kind }`. -/
structure ScalarType where
  name : String
  kind : ScalarKind
deriving DecidableEq, Repr

/-- Embeds `struct ShapeType { name, dim }`. -/
structure ShapeType where
  name : String
  dim : Nat
deriving DecidableEq, Repr

/-- Embeds `struct OtherType { name, ty }`; the `ty` field is the opaque
token stream supplied by the caller, as a rendered string. -/
structure OtherType where
  name : String
  ty : String
deriving DecidableEq, Repr

/-- Embeds `enum Type { Tensor, Scalar, Shape, Other }` (named `Ty` because
`Type` is reserved in Lean). -/
inductive Ty
  | Tensor (tensor : TensorType)
  | Scalar (scalar : ScalarType)
  | Shape (shape : ShapeType)
  | Other (other : OtherType)
deriving DecidableEq, Repr

/-- Rust `{:?}` debug rendering of a `TensorKind` value. -/
def TensorKind.debugFmt : TensorKind → String
  | TensorKind.Int => "Int"
  | TensorKind.Float => "Float"
  | TensorKind.Bool => "Bool"

/-- Rust `{:?}` debug rendering of a `ScalarKind` value. -/
def ScalarKind.debugFmt : ScalarKind → String
  | ScalarKind.Int32 => "Int32"
  | ScalarKind.Int64 => "Int64"
  | ScalarKind.Float32 => "Float32"
  | ScalarKind.Float64 => "Float64"
  | ScalarKind.Bool => "Bool"

/-- Rust `{:?}` debug rendering of an `Option<Vec<usize>>` value. -/
def debugShapeOpt : Option (List Nat) → String
  | none => "None"
  | some l => "Some([" ++ String.intercalate ", " (l.map toString) ++ "])"

/-- One constructor per reachable panic site: the four empty-name panics
and the `assert_ne!` in `ty.rs`, plus the three panics of proc_macro2's
`validate_ident` (the empty-ident one is unreachable from `ty.rs`, whose
constructors reject the empty name first, but is kept for fidelity). -/
inductive RustPanic
  | scalarEmptyName (kind : ScalarKind)
  | shapeEmptyName
  | tensorEmptyName (kind : TensorKind) (shape : Option (List Nat))
  | tensorDimZero
  | otherEmptyName (tokens : String)
  | identEmpty
  | identNumber
  | identInvalid (string : String)
deriving DecidableEq, Repr

/-- The panic message text of each panic site (debug interpolation of
strings modelled up to escaping). -/
def RustPanic.message : RustPanic → String
  | RustPanic.scalarEmptyName kind =>
      "Scalar of Type " ++ kind.debugFmt ++ " was passed with empty name"
  | RustPanic.shapeEmptyName => "Shape was passed with empty name"
  | RustPanic.tensorEmptyName kind shape =>
      "Tensor of Kind " ++ kind.debugFmt ++ " with dim shape "
        ++ debugShapeOpt shape ++ " was passed with empty name"
  | RustPanic.tensorDimZero =>
      "Trying to create TensorType with dim = 0 - should be a Scalar instead!"
  | RustPanic.otherEmptyName tokens =>
      "Other type with tokens " ++ tokens ++ " was passed with empty name"
  | RustPanic.identEmpty => "Ident is not allowed to be empty; use Option<Ident>"
  | RustPanic.identNumber => "Ident cannot be a number; use Literal instead"
  | RustPanic.identInvalid string =>
      "\"" ++ string ++ "\" is not a valid Ident"

/-- Embeds proc_macro2's `is_ident_start` (`'_'` or `XID_Start`), with
`XID_Start` restricted to its ASCII fragment, the letters. -/
def is_ident_start (c : Char) : Bool :=
  c == '_' || c.isAlpha

/-- Embeds proc_macro2's `is_ident_continue` (`XID_Continue`), restricted to
its ASCII fragment: `_`, letters and digits. -/
def is_ident_continue (c : Char) : Bool :=
  c == '_' || c.isAlphanum

/-- Embeds the `ident_ok` helper inside proc_macro2's `validate_ident`:
the first character must satisfy `is_ident_start` and every remaining
character `is_ident_continue`. -/
def ident_ok (string : String) : Bool :=
  match string.data with
  | [] => false
  | first :: rest => is_ident_start first && rest.all is_ident_continue

/-- Embeds `proc_macro2::Ident::new` (fallback `validate_ident` followed by
storing the string): empty-string panic, purely-numeric panic, then the
`ident_ok` check. -/
def Ident.new (string : String) : Except RustPanic String :=
  if string.isEmpty then
    Except.error RustPanic.identEmpty
  else if string.data.all Char.isDigit then
    Except.error RustPanic.identNumber
  else if ident_ok string then
    Except.ok string
  else
    Except.error (RustPanic.identInvalid string)

/-- Embeds `ScalarType::new`: empty-name panic, then `Ident::new`. -/
def ScalarType.new (name : String) (kind : ScalarKind) :
    Except RustPanic ScalarType :=
  if name.isEmpty then
    Except.error (RustPanic.scalarEmptyName kind)
  else
    (Ident.new name).map (fun ident => { name := ident, kind := kind })

/-- Embeds `ScalarType::ty`. -/
def ScalarType.ty (s : ScalarType) : String :=
  match s.kind with
  | ScalarKind.Int32 => "i32"
  | ScalarKind.Int64 => "i64"
  | ScalarKind.Float32 => "f32"
  | ScalarKind.Float64 => "f64"
  | ScalarKind.Bool => "bool"

/-- Embeds `ShapeType::new`: empty-name panic, then `Ident::new`; the
`dim` argument is never inspected. -/
def ShapeType.new (name : String) (dim : Nat) : Except RustPanic ShapeType :=
  if name.isEmpty then
    Except.error RustPanic.shapeEmptyName
  else
    (Ident.new name).map (fun ident => { name := ident, dim := dim })

/-- Embeds `ShapeType::ty`. -/
def ShapeType.ty (s : ShapeType) : String :=
  "[usize; " ++ toString s.dim ++ "]"

/-- Embeds `TensorType::format_name`: a purely numeric name gets a `_`
put in front, every other name passes through unchanged. -/
def TensorType.format_name (name : String) : String :=
  let name_is_number := name.data.all Char.isDigit
  if name_is_number then "_" ++ name else name

/-- Embeds `TensorType::new`: empty-name panic first, then name
normalization, then the `assert_ne!(dim, 0, ...)` check, then
`Ident::new` on the formatted name. -/
def TensorType.new (name : String) (dim : Nat) (kind : TensorKind)
    (shape : Option (List Nat)) : Except RustPanic TensorType :=
  if name.isEmpty then
    Except.error (RustPanic.tensorEmptyName kind shape)
  else
    let formatted_name := TensorType.format_name name
    if dim = 0 then
      Except.error RustPanic.tensorDimZero
    else
      (Ident.new formatted_name).map
        (fun ident => { name := ident, dim := dim, kind := kind, shape := shape })

/-- Embeds `TensorType::new_float_with_shape`. -/
def TensorType.new_float_with_shape (name : String) (dim : Nat)
    (shape : Option (List Nat)) : Except RustPanic TensorType :=
  TensorType.new name dim TensorKind.Float shape

/-- Embeds `TensorType::new_float`. -/
def TensorType.new_float (name : String) (dim : Nat) :
    Except RustPanic TensorType :=
  TensorType.new_float_with_shape name dim none

/-- Embeds `TensorType::new_int_with_shape`. -/
def TensorType.new_int_with_shape (name : String) (dim : Nat)
    (shape : Option (List Nat)) : Except RustPanic TensorType :=
  TensorType.new name dim TensorKind.Int shape

/-- Embeds `TensorType::new_int`. -/
def TensorType.new_int (name : String) (dim : Nat) :
    Except RustPanic TensorType :=
  TensorType.new_int_with_shape name dim none

/-- Embeds `TensorType::new_bool_with_shape`. -/
def TensorType.new_bool_with_shape (name : String) (dim : Nat)
    (shape : Option (List Nat)) : Except RustPanic TensorType :=
  TensorType.new name dim TensorKind.Bool shape

/-- Embeds `TensorType::new_bool`. -/
def TensorType.new_bool (name : String) (dim : Nat) :
    Except RustPanic TensorType :=
  TensorType.new_bool_with_shape name dim none

/-- Embeds `TensorType::ty`: dispatch on the element kind only. -/
def TensorType.ty (t : TensorType) : String :=
  match t.kind with
  | TensorKind.Float => "Tensor<B, " ++ toString t.dim ++ ">"
  | TensorKind.Int => "Tensor<B, " ++ toString t.dim ++ ", Int>"
  | TensorKind.Bool => "Tensor<B, " ++ toString t.dim ++ ", Bool>"

/-- Embeds `OtherType::new`: empty-name panic, then `Ident::new`. -/
def OtherType.new (name : String) (tokens : String) :
    Except RustPanic OtherType :=
  if name.isEmpty then
    Except.error (RustPanic.otherEmptyName tokens)
  else
    (Ident.new name).map (fun ident => { name := ident, ty := tokens })

/-- Embeds `Type::name`: uniform name accessor dispatching on the tag. -/
def Ty.name : Ty → String
  | Ty.Tensor tensor => tensor.name
  | Ty.Scalar scalar => scalar.name
  | Ty.Shape shape => shape.name
  | Ty.Other other => other.name

/-- Embeds `Type::ty`: dispatch to the per-kind renderer; `OtherType::ty`
returns a clone of the stored token stream, embedded as the field itself. -/
def Ty.ty : Ty → String
  | Ty.Tensor tensor => tensor.ty
  | Ty.Scalar scalar => scalar.ty
  | Ty.Shape shape => shape.ty
  | Ty.Other other => other.ty

instance {e a : Type} [DecidableEq e] [DecidableEq a] : DecidableEq (Except e a) := fun x y =>
  match x, y with
  | Except.ok u, Except.ok v => decidable_of_iff (u = v) (by simp)
  | Except.error u, Except.error v => decidable_of_iff (u = v) (by simp)
  | Except.ok _, Except.error _ => isFalse (by simp)
  | Except.error _, Except.ok _ => isFalse (by simp)

/-- Helper: a non-empty string has `isEmpty = false`. -/
lemma isEmpty_eq_false_of_ne (name : String) (h : name ≠ "") :
    name.isEmpty = false := by
  cases hb : name.isEmpty
  · rfl
  · exact absurd ((String.isEmpty_iff name).mp hb) h

/-- Helper: mapping a function over an `Except` preserves success. -/
lemma map_isOk {e a b : Type} (f : a → b) (x : Except e a) :
    (Except.map f x).isOk = x.isOk := by
  cases x <;> rfl

/-- Helper: on a non-empty string, `Ident.new` reduces to the numeric check
followed by the `ident_ok` check. -/
lemma ident_new_eval (s : String) (hemp : s.isEmpty = false) :
    Ident.new s
      = (if s.data.all Char.isDigit then Except.error RustPanic.identNumber
         else if ident_ok s then Except.ok s
         else Except.error (RustPanic.identInvalid s)) := by
  unfold Ident.new
  rw [hemp]
  simp

/-- Helper: `Ident.new` returns the very string it validated. -/
lemma ident_new_ok_eq (s t : String) (h : Ident.new s = Except.ok t) :
    t = s := by
  unfold Ident.new at h
  split at h
  · simp at h
  · split at h
    · simp at h
    · split at h
      · exact (Except.ok.inj h).symm
      · simp at h

/-- Helper: `Ident.new` succeeds on a non-empty, non-numeric,
well-formed identifier. -/
lemma ident_new_of_valid (s : String) (hemp : s.isEmpty = false)
    (hnum : s.data.all Char.isDigit = false) (hok : ident_ok s = true) :
    Ident.new s = Except.ok s := by
  rw [ident_new_eval s hemp, hnum, hok]
  simp

/-- Helper: on a non-empty string, `Ident.new` succeeds exactly on
non-numeric well-formed identifiers. -/
lemma ident_new_isOk_iff (s : String) (hne : s ≠ "") :
    (Ident.new s).isOk = true
      ↔ (s.data.all Char.isDigit = false ∧ ident_ok s = true) := by
  rw [ident_new_eval s (isEmpty_eq_false_of_ne s hne)]
  cases hnum : s.data.all Char.isDigit with
  | true => simp [Except.isOk, Except.toBool]
  | false =>
    cases hok : ident_ok s with
    | true => simp [Except.isOk, Except.toBool]
    | false => simp [Except.isOk, Except.toBool]

/-- Helper: `format_name` of a non-empty name is non-empty. -/
lemma format_name_isEmpty_eq_false (name : String) (h : name ≠ "") :
    (TensorType.format_name name).isEmpty = false := by
  have hz : TensorType.format_name name
      = if name.data.all Char.isDigit then "_" ++ name else name := rfl
  rw [hz]
  by_cases hd : name.data.all Char.isDigit = true
  · rw [if_pos hd]
    apply isEmpty_eq_false_of_ne
    intro hcontra
    have hdta := congrArg String.data hcontra
    simp [String.data_append] at hdta
  · rw [if_neg hd]
    exact isEmpty_eq_false_of_ne name h

/-- Helper: `format_name` of a non-empty name is not the empty string. -/
lemma format_name_ne_empty (name : String) (h : name ≠ "") :
    TensorType.format_name name ≠ "" := by
  intro hc
  have hfe := format_name_isEmpty_eq_false name h
  rw [hc] at hfe
  exact absurd hfe (by decide)

/-- Helper: evaluation of `ScalarType.new` past the empty-name check. -/
lemma scalar_new_eq_map (name : String) (kind : ScalarKind)
    (hemp : name.isEmpty = false) :
    ScalarType.new name kind
      = (Ident.new name).map (fun ident => { name := ident, kind := kind }) := by
  unfold ScalarType.new
  rw [hemp]
  simp

/-- Helper: evaluation of `ShapeType.new` past the empty-name check. -/
lemma shape_new_eq_map (name : String) (dim : Nat)
    (hemp : name.isEmpty = false) :
    ShapeType.new name dim
      = (Ident.new name).map (fun ident => { name := ident, dim := dim }) := by
  unfold ShapeType.new
  rw [hemp]
  simp

/-- Helper: evaluation of `OtherType.new` past the empty-name check. -/
lemma other_new_eq_map (name tokens : String)
    (hemp : name.isEmpty = false) :
    OtherType.new name tokens
      = (Ident.new name).map (fun ident => { name := ident, ty := tokens }) := by
  unfold OtherType.new
  rw [hemp]
  simp

/-- Helper: evaluation of `TensorType.new` past the empty-name and
zero-dim checks. -/
lemma tensor_new_eq_map (name : String) (dim : Nat) (kind : TensorKind)
    (shape : Option (List Nat)) (hemp : name.isEmpty = false) (hdim : dim ≠ 0) :
    TensorType.new name dim kind shape
      = (Ident.new (TensorType.format_name name)).map
          (fun ident => { name := ident, dim := dim, kind := kind, shape := shape }) := by
  unfold TensorType.new
  rw [hemp]
  simp [hdim]

/-- C1: for every validly constructed `TensorType`, `TensorType::ty` (and
hence `Type::ty`) returns exactly the type expression determined by the
element kind and `dim` alone — `Tensor<B, dim>` for `Float`,
`Tensor<B, dim, Int>` for `Int`, `Tensor<B, dim, Bool>` for `Bool` — so
neither the name nor the optional `shape` field affects the output. -/
theorem c1_tensor_ty_determined_by_kind_and_dim
    (name : String) (dim : Nat) (kind : TensorKind) (shape : Option (List Nat))
    (t : TensorType) (h : TensorType.new name dim kind shape = Except.ok t) :
    t.ty = (match kind with
      | TensorKind.Float => "Tensor<B, " ++ toString dim ++ ">"
      | TensorKind.Int => "Tensor<B, " ++ toString dim ++ ", Int>"
      | TensorKind.Bool => "Tensor<B, " ++ toString dim ++ ", Bool>") ∧
    (Ty.Tensor t).ty = t.ty := by
  by_cases hne : name = ""
  · subst hne
    simp [TensorType.new, String.isEmpty_iff] at h
  · by_cases hd : dim = 0
    · subst hd
      simp [TensorType.new, isEmpty_eq_false_of_ne name hne] at h
    · rw [tensor_new_eq_map name dim kind shape
        (isEmpty_eq_false_of_ne name hne) hd] at h
      cases hi : Ident.new (TensorType.format_name name) with
      | error e => rw [hi] at h; simp [Except.map] at h
      | ok s =>
        rw [hi] at h
        simp only [Except.map, Except.ok.injEq] at h
        subst h
        refine ⟨?_, rfl⟩
        cases kind <;> simp [TensorType.ty]

/-- Witness for C1 at `new("7", 2, Float, None)`. -/
theorem c1_witness_tensor_ty :
    ({ name := "_7", dim := 2, kind := TensorKind.Float, shape := none } : TensorType).ty
      = "Tensor<B, 2>" :=
  (c1_tensor_ty_determined_by_kind_and_dim "7" 2 TensorKind.Float none _ (by decide)).1

/-- Counterexample to C2 as stated: the Scalar, Shape and Other
constructors, given the purely numeric name "7", do not store it
unchanged — they abort inside proc_macro2 identifier validation
("Ident cannot be a number"), so no descriptor is constructed at all. -/
theorem c2_counterexample_scalar_numeric_name :
    ScalarType.new "7" ScalarKind.Int32 = Except.error RustPanic.identNumber ∧
    ShapeType.new "7" 1 = Except.error RustPanic.identNumber ∧
    OtherType.new "7" "Vec<u8>" = Except.error RustPanic.identNumber := by
  refine ⟨by decide, by decide, by decide⟩

/-- C2 (amended): a purely numeric name is stored by a successful
`TensorType::new` with a `_` put in front; a successfully constructed
tensor whose name contains a non-digit stores it unchanged; the
`ScalarType`, `ShapeType` and `OtherType` constructors never modify a name
they store, and given a purely numeric non-empty name they abort in
proc_macro2 identifier validation rather than storing anything. -/
theorem c2_numeric_name_normalization_amended :
    (∀ (name : String) (dim : Nat) (kind : TensorKind) (shape : Option (List Nat))
        (t : TensorType), name.data.all Char.isDigit = true →
      TensorType.new name dim kind shape = Except.ok t → t.name = "_" ++ name) ∧
    (∀ (name : String) (dim : Nat) (kind : TensorKind) (shape : Option (List Nat))
        (t : TensorType), name.data.all Char.isDigit = false →
      TensorType.new name dim kind shape = Except.ok t → t.name = name) ∧
    (∀ (name : String) (kind : ScalarKind) (s : ScalarType),
      ScalarType.new name kind = Except.ok s → s.name = name) ∧
    (∀ (name : String) (dim : Nat) (s : ShapeType),
      ShapeType.new name dim = Except.ok s → s.name = name) ∧
    (∀ (name tokens : String) (o : OtherType),
      OtherType.new name tokens = Except.ok o → o.name = name) ∧
    (∀ (name : String) (kind : ScalarKind), name ≠ "" →
      name.data.all Char.isDigit = true →
      ScalarType.new name kind = Except.error RustPanic.identNumber) ∧
    (∀ (name : String) (dim : Nat), name ≠ "" →
      name.data.all Char.isDigit = true →
      ShapeType.new name dim = Except.error RustPanic.identNumber) ∧
    (∀ (name tokens : String), name ≠ "" →
      name.data.all Char.isDigit = true →
      OtherType.new name tokens = Except.error RustPanic.identNumber) := by
  have tensorName : ∀ (name : String) (dim : Nat) (kind : TensorKind)
      (shape : Option (List Nat)) (t : TensorType),
      TensorType.new name dim kind shape = Except.ok t →
      t.name = TensorType.format_name name := by
    intro name dim kind shape t h
    by_cases hne : name = ""
    · subst hne
      simp [TensorType.new, String.isEmpty_iff] at h
    · by_cases hd : dim = 0
      · subst hd
        simp [TensorType.new, isEmpty_eq_false_of_ne name hne] at h
      · rw [tensor_new_eq_map name dim kind shape
          (isEmpty_eq_false_of_ne name hne) hd] at h
        cases hi : Ident.new (TensorType.format_name name) with
        | error e => rw [hi] at h; simp [Except.map] at h
        | ok s =>
          rw [hi] at h
          simp only [Except.map, Except.ok.injEq] at h
          subst h
          exact ident_new_ok_eq _ _ hi
  refine ⟨?_, ?_, ?_, ?_, ?_, ?_, ?_, ?_⟩
  · intro name dim kind shape t hdig h
    rw [tensorName name dim kind shape t h]
    simp [TensorType.format_name, hdig]
  · intro name dim kind shape t hdig h
    rw [tensorName name dim kind shape t h]
    simp [TensorType.format_name, hdig]
  · intro name kind s h
    by_cases hne : name = ""
    · subst hne
      simp [ScalarType.new, String.isEmpty_iff] at h
    · rw [scalar_new_eq_map name kind (isEmpty_eq_false_of_ne name hne)] at h
      cases hi : Ident.new name with
      | error e => rw [hi] at h; simp [Except.map] at h
      | ok u =>
        rw [hi] at h
        simp only [Except.map, Except.ok.injEq] at h
        subst h
        simpa using ident_new_ok_eq _ _ hi
  · intro name dim s h
    by_cases hne : name = ""
    · subst hne
      simp [ShapeType.new, String.isEmpty_iff] at h
    · rw [shape_new_eq_map name dim (isEmpty_eq_false_of_ne name hne)] at h
      cases hi : Ident.new name with
      | error e => rw [hi] at h; simp [Except.map] at h
      | ok u =>
        rw [hi] at h
        simp only [Except.map, Except.ok.injEq] at h
        subst h
        simpa using ident_new_ok_eq _ _ hi
  · intro name tokens o h
    by_cases hne : name = ""
    · subst hne
      simp [OtherType.new, String.isEmpty_iff] at h
    · rw [other_new_eq_map name tokens (isEmpty_eq_false_of_ne name hne)] at h
      cases hi : Ident.new name with
      | error e => rw [hi] at h; simp [Except.map] at h
      | ok u =>
        rw [hi] at h
        simp only [Except.map, Except.ok.injEq] at h
        subst h
        simpa using ident_new_ok_eq _ _ hi
  · intro name kind hne hnum
    have hemp := isEmpty_eq_false_of_ne name hne
    rw [scalar_new_eq_map name kind hemp, ident_new_eval name hemp, hnum]
    simp [Except.map]
  · intro name dim hne hnum
    have hemp := isEmpty_eq_false_of_ne name hne
    rw [shape_new_eq_map name dim hemp, ident_new_eval name hemp, hnum]
    simp [Except.map]
  · intro name tokens hne hnum
    have hemp := isEmpty_eq_false_of_ne name hne
    rw [other_new_eq_map name tokens hemp, ident_new_eval name hemp, hnum]
    simp [Except.map]

/-- Witness for amended C2: tensor name "7" becomes "_7", tensor name "a1"
is unchanged, the other constructors store "x" unchanged, and all three
abort on the numeric name "9". -/
theorem c2_witness_name_normalization :
    ({ name := "_7", dim := 2, kind := TensorKind.Float, shape := none } : TensorType).name
        = "_" ++ "7" ∧
    ({ name := "a1", dim := 1, kind := TensorKind.Int, shape := none } : TensorType).name
        = "a1" ∧
    ({ name := "x", kind := ScalarKind.Int32 } : ScalarType).name = "x" ∧
    ({ name := "x", dim := 1 } : ShapeType).name = "x" ∧
    ({ name := "x", ty := "Vec<u8>" } : OtherType).name = "x" ∧
    ScalarType.new "9" ScalarKind.Bool = Except.error RustPanic.identNumber ∧
    ShapeType.new "9" 0 = Except.error RustPanic.identNumber ∧
    OtherType.new "9" "B" = Except.error RustPanic.identNumber :=
  ⟨c2_numeric_name_normalization_amended.1 "7" 2 TensorKind.Float none _ (by decide) (by decide),
   c2_numeric_name_normalization_amended.2.1 "a1" 1 TensorKind.Int none _ (by decide) (by decide),
   c2_numeric_name_normalization_amended.2.2.1 "x" ScalarKind.Int32 _ (by decide),
   c2_numeric_name_normalization_amended.2.2.2.1 "x" 1 _ (by decide),
   c2_numeric_name_normalization_amended.2.2.2.2.1 "x" "Vec<u8>" _ (by decide),
   c2_numeric_name_normalization_amended.2.2.2.2.2.1 "9" ScalarKind.Bool (by decide) (by decide),
   c2_numeric_name_normalization_amended.2.2.2.2.2.2.1 "9" 0 (by decide) (by decide),
   c2_numeric_name_normalization_amended.2.2.2.2.2.2.2 "9" "B" (by decide) (by decide)⟩

/-- C3: every constructor rejects an empty name, and the empty-name check
runs before any other validation (the zero-dim assertion and proc_macro2
identifier validation alike): a `TensorType` with empty name and `dim = 0`
fails with the empty-name panic, never the zero-dim panic. -/
theorem c3_empty_name_aborts_first :
    (∀ kind : ScalarKind,
      ScalarType.new "" kind = Except.error (RustPanic.scalarEmptyName kind)) ∧
    (∀ dim : Nat, ShapeType.new "" dim = Except.error RustPanic.shapeEmptyName) ∧
    (∀ tokens : String,
      OtherType.new "" tokens = Except.error (RustPanic.otherEmptyName tokens)) ∧
    (∀ (dim : Nat) (kind : TensorKind) (shape : Option (List Nat)),
      TensorType.new "" dim kind shape
        = Except.error (RustPanic.tensorEmptyName kind shape)) ∧
    (∀ (kind : TensorKind) (shape : Option (List Nat)),
      TensorType.new "" 0 kind shape ≠ Except.error RustPanic.tensorDimZero) :=
  ⟨fun _ => rfl, fun _ => rfl, fun _ => rfl, fun _ _ _ => rfl,
   fun _ _ h => RustPanic.noConfusion (Except.error.inj h)⟩

/-- Counterexample to C4 as stated: with the non-empty, non-numeric name
"a b" (left unchanged by `format_name`) and dim = 1, construction does not
succeed — it aborts inside proc_macro2 identifier validation. -/
theorem c4_counterexample_invalid_ident_name :
    TensorType.new "a b" 1 TensorKind.Float none
        = Except.error (RustPanic.identInvalid "a b") ∧
    ¬ ("a b" = "") := by
  refine ⟨by decide, by decide⟩

/-- C4 (amended): a zero-dim tensor with a non-empty name aborts with the
dedicated panic, whose message tells the caller to use a Scalar instead;
for dim ≥ 1 construction succeeds exactly when the formatted name passes
proc_macro2 identifier validation (non-numeric and well-formed). -/
theorem c4_zero_dim_tensor_aborts_amended
    (name : String) (dim : Nat) (kind : TensorKind) (shape : Option (List Nat))
    (hname : name ≠ "") :
    (dim = 0 →
      TensorType.new name dim kind shape = Except.error RustPanic.tensorDimZero ∧
      RustPanic.tensorDimZero.message
        = "Trying to create TensorType with dim = 0 - should be a Scalar instead!") ∧
    (1 ≤ dim →
      (TensorType.new name dim kind shape).isOk
        = (!(TensorType.format_name name).data.all Char.isDigit
            && ident_ok (TensorType.format_name name))) := by
  have hemp : name.isEmpty = false := isEmpty_eq_false_of_ne name hname
  have hfe : (TensorType.format_name name).isEmpty = false :=
    format_name_isEmpty_eq_false name hname
  constructor
  · intro h0
    subst h0
    refine ⟨?_, rfl⟩
    unfold TensorType.new
    rw [hemp]
    simp
  · intro h1
    have hdim : dim ≠ 0 := by omega
    rw [tensor_new_eq_map name dim kind shape hemp hdim, map_isOk,
      ident_new_eval _ hfe]
    cases hnum : (TensorType.format_name name).data.all Char.isDigit with
    | true => simp [Except.isOk, Except.toBool]
    | false =>
      cases hok : ident_ok (TensorType.format_name name) with
      | true => simp [Except.isOk, Except.toBool]
      | false => simp [Except.isOk, Except.toBool]

/-- Witness for amended C4 at name "x", dims 0 and 1. -/
theorem c4_witness_dim_checks :
    TensorType.new "x" 0 TensorKind.Float none = Except.error RustPanic.tensorDimZero ∧
    (TensorType.new "x" 1 TensorKind.Float none).isOk
      = (!(TensorType.format_name "x").data.all Char.isDigit
          && ident_ok (TensorType.format_name "x")) ∧
    (TensorType.new "x" 1 TensorKind.Float none).isOk = true :=
  ⟨((c4_zero_dim_tensor_aborts_amended "x" 0 TensorKind.Float none (by decide)).1 rfl).1,
   (c4_zero_dim_tensor_aborts_amended "x" 1 TensorKind.Float none (by decide)).2 (by decide),
   by decide⟩

/-- C5: `ScalarType::ty` is the static five-entry table from `ScalarKind`
to primitive tokens, independent of the descriptor name. -/
theorem c5_scalar_ty_static_table :
    ∀ name : String,
      (ScalarType.mk name ScalarKind.Int32).ty = "i32" ∧
      (ScalarType.mk name ScalarKind.Int64).ty = "i64" ∧
      (ScalarType.mk name ScalarKind.Float32).ty = "f32" ∧
      (ScalarType.mk name ScalarKind.Float64).ty = "f64" ∧
      (ScalarType.mk name ScalarKind.Bool).ty = "bool" :=
  fun _ => ⟨rfl, rfl, rfl, rfl, rfl⟩

/-- C6: `ShapeType::ty` renders the fixed-size array type of length `dim`,
independent of the descriptor name (stated for every `dim`, so in
particular for every `dim ≥ 1`). -/
theorem c6_shape_ty_fixed_size_array :
    ∀ (name : String) (dim : Nat),
      (ShapeType.mk name dim).ty = "[usize; " ++ toString dim ++ "]" ∧
      (Ty.Shape (ShapeType.mk name dim)).ty = (ShapeType.mk name dim).ty :=
  fun _ _ => ⟨rfl, rfl⟩

/-- C7: `OtherType::ty` (via `Type::ty`) returns the stored expression
exactly as supplied at construction, for any expression including the
empty one. -/
theorem c7_other_ty_verbatim
    (name expr : String) (o : OtherType)
    (h : OtherType.new name expr = Except.ok o) :
    (Ty.Other o).ty = expr ∧ o.ty = expr := by
  by_cases hne : name = ""
  · subst hne
    simp [OtherType.new, String.isEmpty_iff] at h
  · rw [other_new_eq_map name expr (isEmpty_eq_false_of_ne name hne)] at h
    cases hi : Ident.new name with
    | error e => rw [hi] at h; simp [Except.map] at h
    | ok u =>
      rw [hi] at h
      simp only [Except.map, Except.ok.injEq] at h
      subst h
      exact ⟨rfl, rfl⟩

/-- Witness for C7 at name "x" and the empty expression. -/
theorem c7_witness_other_ty :
    (Ty.Other { name := "x", ty := "" }).ty = "" ∧
    ({ name := "x", ty := "" } : OtherType).ty = "" :=
  c7_other_ty_verbatim "x" "" _ (by decide)

/-- Counterexample to C8 as stated: the non-empty name "a b" does not
yield a successful construction — `OtherType::new` aborts in proc_macro2
identifier validation, a third failure path beside the empty-name and
zero-dim ones. -/
theorem c8_counterexample_nonempty_name_aborts :
    OtherType.new "a b" "Vec<u8>" = Except.error (RustPanic.identInvalid "a b") ∧
    ¬ ("a b" = "") := by
  refine ⟨by decide, by decide⟩

/-- C8 (amended): construction fails exactly on invalid input — an empty
name, a purely numeric or ill-formed identifier name (rejected by
proc_macro2 identifier validation, applied to the formatted name for
tensors), or a zero dim for tensors — and succeeds on every other input;
rendering and the name accessor are total over constructed values. -/
theorem c8_construction_validity_amended :
    (∀ (name : String) (kind : ScalarKind),
      (ScalarType.new name kind).isOk = true ↔
        name ≠ "" ∧ name.data.all Char.isDigit = false ∧ ident_ok name = true) ∧
    (∀ (name : String) (dim : Nat),
      (ShapeType.new name dim).isOk = true ↔
        name ≠ "" ∧ name.data.all Char.isDigit = false ∧ ident_ok name = true) ∧
    (∀ (name tokens : String),
      (OtherType.new name tokens).isOk = true ↔
        name ≠ "" ∧ name.data.all Char.isDigit = false ∧ ident_ok name = true) ∧
    (∀ (name : String) (dim : Nat) (kind : TensorKind) (shape : Option (List Nat)),
      (TensorType.new name dim kind shape).isOk = true ↔
        name ≠ "" ∧ dim ≠ 0 ∧
        (TensorType.format_name name).data.all Char.isDigit = false ∧
        ident_ok (TensorType.format_name name) = true) := by
  refine ⟨?_, ?_, ?_, ?_⟩
  · intro name kind
    by_cases hne : name = ""
    · subst hne
      simp [ScalarType.new, String.isEmpty_iff, Except.isOk, Except.toBool]
    · rw [scalar_new_eq_map name kind (isEmpty_eq_false_of_ne name hne), map_isOk,
        ident_new_isOk_iff name hne]
      simp [hne]
  · intro name dim
    by_cases hne : name = ""
    · subst hne
      simp [ShapeType.new, String.isEmpty_iff, Except.isOk, Except.toBool]
    · rw [shape_new_eq_map name dim (isEmpty_eq_false_of_ne name hne), map_isOk,
        ident_new_isOk_iff name hne]
      simp [hne]
  · intro name tokens
    by_cases hne : name = ""
    · subst hne
      simp [OtherType.new, String.isEmpty_iff, Except.isOk, Except.toBool]
    · rw [other_new_eq_map name tokens (isEmpty_eq_false_of_ne name hne), map_isOk,
        ident_new_isOk_iff name hne]
      simp [hne]
  · intro name dim kind shape
    by_cases hne : name = ""
    · subst hne
      simp [TensorType.new, String.isEmpty_iff, Except.isOk, Except.toBool]
    · by_cases hd : dim = 0
      · subst hd
        have hemp := isEmpty_eq_false_of_ne name hne
        constructor
        · intro habs
          unfold TensorType.new at habs
          rw [hemp] at habs
          simp [Except.isOk, Except.toBool] at habs
        · rintro ⟨-, hzero, -, -⟩
          exact absurd rfl hzero
      · rw [tensor_new_eq_map name dim kind shape
            (isEmpty_eq_false_of_ne name hne) hd, map_isOk,
          ident_new_isOk_iff _ (format_name_ne_empty name hne)]
        simp [hne, hd]

/-- Witness for amended C8: each constructor succeeds on a concrete valid
input. -/
theorem c8_witness_valid_inputs :
    (ScalarType.new "x" ScalarKind.Int32).isOk = true ∧
    (ShapeType.new "x" 1).isOk = true ∧
    (OtherType.new "x" "Vec<u8>").isOk = true ∧
    (TensorType.new "x" 1 TensorKind.Float none).isOk = true :=
  ⟨(c8_construction_validity_amended.1 "x" ScalarKind.Int32).mpr
     ⟨by decide, by decide, by decide⟩,
   (c8_construction_validity_amended.2.1 "x" 1).mpr ⟨by decide, by decide, by decide⟩,
   (c8_construction_validity_amended.2.2.1 "x" "Vec<u8>").mpr
     ⟨by decide, by decide, by decide⟩,
   (c8_construction_validity_amended.2.2.2 "x" 1 TensorKind.Float none).mpr
     ⟨by decide, by decide, by decide, by decide⟩⟩

/-- C9: each tensor convenience constructor equals the general constructor
with the corresponding kind, and omitting the shape defaults it to `none`. -/
theorem c9_convenience_constructors_delegate :
    ∀ (name : String) (dim : Nat) (shape : Option (List Nat)),
      TensorType.new_float name dim = TensorType.new name dim TensorKind.Float none ∧
      TensorType.new_float_with_shape name dim shape
        = TensorType.new name dim TensorKind.Float shape ∧
      TensorType.new_int name dim = TensorType.new name dim TensorKind.Int none ∧
      TensorType.new_int_with_shape name dim shape
        = TensorType.new name dim TensorKind.Int shape ∧
      TensorType.new_bool name dim = TensorType.new name dim TensorKind.Bool none ∧
      TensorType.new_bool_with_shape name dim shape
        = TensorType.new name dim TensorKind.Bool shape :=
  fun _ _ _ => ⟨rfl, rfl, rfl, rfl, rfl, rfl⟩

/-- Counterexample to C10 as stated: at the non-empty numeric name "7",
`ShapeType::new("7", 0)` does not succeed — it aborts in proc_macro2
identifier validation, before `dim` could matter. -/
theorem c10_counterexample_numeric_name_dim_zero :
    ShapeType.new "7" 0 = Except.error RustPanic.identNumber ∧
    ¬ ("7" = "") := by
  refine ⟨by decide, by decide⟩

/-- C10 (amended): `ShapeType::new` performs no rank validation at all —
whether construction succeeds never depends on `dim` — and for every
non-empty name accepted by identifier validation, `ShapeType::new(name, 0)`
succeeds and renders as `[usize; 0]`. -/
theorem c10_shape_accepts_dim_zero_amended :
    (∀ (name : String) (d1 d2 : Nat),
      (ShapeType.new name d1).isOk = (ShapeType.new name d2).isOk) ∧
    (∀ name : String, name ≠ "" →
      name.data.all Char.isDigit = false → ident_ok name = true →
      ShapeType.new name 0 = Except.ok (ShapeType.mk name 0) ∧
      (ShapeType.mk name 0).ty = "[usize; 0]") := by
  constructor
  · intro name d1 d2
    by_cases hne : name = ""
    · subst hne
      rfl
    · have hemp := isEmpty_eq_false_of_ne name hne
      rw [shape_new_eq_map name d1 hemp, shape_new_eq_map name d2 hemp,
        map_isOk, map_isOk]
  · intro name hne hnum hok
    have hemp : name.isEmpty = false := isEmpty_eq_false_of_ne name hne
    refine ⟨?_, ?_⟩
    · rw [shape_new_eq_map name 0 hemp, ident_new_of_valid name hemp hnum hok]
      rfl
    · show "[usize; " ++ toString (0 : Nat) ++ "]" = "[usize; 0]"
      decide

/-- Witness for amended C10 at names "s" (rank-0 success) and "9"
(dim-independence of failure). -/
theorem c10_witness_shape_dim_zero_ok :
    ShapeType.new "s" 0 = Except.ok (ShapeType.mk "s" 0) ∧
    (ShapeType.mk "s" 0).ty = "[usize; 0]" ∧
    (ShapeType.new "9" 0).isOk = (ShapeType.new "9" 5).isOk :=
  ⟨(c10_shape_accepts_dim_zero_amended.2 "s" (by decide) (by decide) (by decide)).1,
   (c10_shape_accepts_dim_zero_amended.2 "s" (by decide) (by decide) (by decide)).2,
   c10_shape_accepts_dim_zero_amended.1 "9" 0 5⟩

end BurnTy
